import Mathlib

/-!
Verification of the student CRUD service (SQLModel + FastAPI repository).

Shallow embedding:
* `models.py` — the `Student` table row and its three derived views
  (`StudentCreate`, `StudentRead`, `StudentUpdate`).
* `crud.py` — the persistence gateway, modelled over an explicit store
  (a list of rows standing for the single `student` table).  Database
  effects that matter to the claims are made explicit: the primary-key
  UNIQUE constraint rejects a duplicate `matric_number` on insert, and the
  NOT NULL constraints (every non-`Optional` column of the SQLModel class)
  reject a committed row holding NULL in `first_name`, `last_name` or
  `password`.  A failed commit rolls the transaction back, leaving the
  store unchanged.
* `better_app.py` / `app.py` — the request handlers, returning an HTTP
  status and a JSON body.
* Request validation (FastAPI/pydantic): payloads are lists of key/value
  pairs; parsing reads only the declared fields, ignores undeclared keys,
  and tracks which update fields were explicitly sent
  (`model_dump` with `exclude_unset` set).
-/

/-- A JSON scalar as it appears in request/response payloads of this
service (all fields are strings, nullable strings, or the boolean in the
delete acknowledgment). -/
inductive JVal where
  | s (v : String)
  | null
  | b (v : Bool)
deriving DecidableEq, Repr

/-- An HTTP response body: a flat JSON object or an array of flat JSON
objects — the only shapes this service produces. -/
inductive Body where
  | obj (fields : List (String × JVal))
  | arr (rows : List (List (String × JVal)))
deriving DecidableEq, Repr

/-- The keys occurring in a response body. -/
def Body.keys : Body → List String
  | .obj fields => fields.map Prod.fst
  | .arr rows => (rows.map (fun row => row.map Prod.fst)).flatten

/-- An HTTP response: status code plus JSON body. -/
structure Response where
  status : Nat
  body : Body
deriving DecidableEq, Repr

/-- `models.py` `Student(StudentBase, table=True)`: the table row.
`email` is the one nullable column (`str | None`); `matric_number` is the
primary key. -/
structure Student where
  matric_number : String
  first_name : String
  last_name : String
  email : Option String := none
  password : String
deriving DecidableEq, Repr

/-- `models.py` `StudentCreate(StudentBase)`: the creation view — all base
fields plus `password`; only `email` is optional. -/
structure StudentCreate where
  matric_number : String
  first_name : String
  last_name : String
  email : Option String := none
  password : String
deriving DecidableEq, Repr

/-- `models.py` `StudentRead(StudentBase)`: the read view — the base
fields, without `password`. -/
structure StudentRead where
  matric_number : String
  first_name : String
  last_name : String
  email : Option String := none
deriving DecidableEq, Repr

/-- `models.py` `StudentUpdate`: every field `str | None = None`.  Pydantic
additionally tracks which fields the caller explicitly sent, and
`model_dump` with `exclude_unset` keeps exactly those; so each field is
`Option (Option String)`: the outer `none` means "not in the payload",
`some v` means "explicitly sent with value `v`", where `v = none` is an
explicit JSON null. -/
structure StudentUpdate where
  first_name : Option (Option String) := none
  last_name : Option (Option String) := none
  email : Option (Option String) := none
  password : Option (Option String) := none
deriving DecidableEq, Repr

/-- A row as it stands in the session after the `setattr` loop of
`update_student`: Python attribute assignment is unchecked, so every
column may transiently hold NULL; the NOT NULL constraints are only
enforced when the UPDATE is committed. -/
structure PendingStudent where
  matric_number : String
  first_name : Option String
  last_name : Option String
  email : Option String
  password : Option String
deriving DecidableEq, Repr

/-- The `student` table: its rows.  The primary-key constraint keeps
`matric_number` unique among reachable stores. -/
abbrev StudentStore := List Student

/-- `response_model=StudentRead`: FastAPI filters the returned row through
the read view before serializing. -/
def StudentRead.fromStudent (s : Student) : StudentRead :=
  { matric_number := s.matric_number, first_name := s.first_name
    last_name := s.last_name, email := s.email }

/-- JSON serialization of the read view: the four base fields, `email`
rendered as null when absent. -/
def StudentRead.serialize (r : StudentRead) : List (String × JVal) :=
  [("matric_number", .s r.matric_number),
   ("first_name", .s r.first_name),
   ("last_name", .s r.last_name),
   ("email", match r.email with | some e => .s e | none => .null)]

namespace Crud

/-- Result of `create_students`: the committed row, or the IntegrityError
SQLite raises when the primary key already exists (uncaught in `crud.py`). -/
inductive CreateResult where
  | created (s : Student)
  | integrityError
deriving DecidableEq, Repr

/-- Result of `update_student`: `None` for a missing row, the refreshed
row on success, or the IntegrityError raised at commit when an explicit
null was written into a NOT NULL column. -/
inductive UpdateResult where
  | notFound
  | integrityError
  | updated (s : Student)
deriving DecidableEq, Repr

/-- `crud.py` `create_students`: `Student.model_validate(student)` copies
the creation view's fields into a table row; `session.add` + `commit`
inserts it, unless the primary-key constraint fires (duplicate
`matric_number`), in which case the transaction rolls back. -/
def create_students (store : StudentStore) (student : StudentCreate) :
    StudentStore × CreateResult :=
  let db_student : Student :=
    { matric_number := student.matric_number, first_name := student.first_name
      last_name := student.last_name, email := student.email
      password := student.password }
  if store.any (fun r => r.matric_number = student.matric_number) then
    (store, .integrityError)
  else
    (store ++ [db_student], .created db_student)

/-- `crud.py` `get_students`: `select(Student)).all()` — every row. -/
def get_students (store : StudentStore) : List Student :=
  store

/-- `crud.py` `get_student_by_matric_number`: `session.get(Student, key)`
— point lookup on the primary key, `None` when absent. -/
def get_student_by_matric_number (store : StudentStore)
    (matric_number : String) : Option Student :=
  store.find? (fun r => r.matric_number = matric_number)

/-- The `setattr` loop of `update_student`: overwrite exactly the fields
present in `model_dump(exclude_unset=True)` — an explicitly sent null is
written through. -/
def setAttrs (s : Student) (u : StudentUpdate) : PendingStudent :=
  { matric_number := s.matric_number
    first_name := match u.first_name with | none => some s.first_name | some v => v
    last_name := match u.last_name with | none => some s.last_name | some v => v
    email := match u.email with | none => s.email | some v => v
    password := match u.password with | none => some s.password | some v => v }

/-- Committing the pending row: the NOT NULL constraints on
`first_name`, `last_name` and `password` must hold, else the UPDATE
fails with an IntegrityError. -/
def commitRow (p : PendingStudent) : Option Student :=
  match p.first_name, p.last_name, p.password with
  | some f, some l, some pw =>
      some { matric_number := p.matric_number, first_name := f
             last_name := l, email := p.email, password := pw }
  | _, _, _ => none

/-- `crud.py` `update_student`: fetch by key (`None` when absent), apply
the explicitly-sent fields, commit.  A failed commit rolls back, leaving
the table unchanged; a successful commit updates the row with that
primary key. -/
def update_student (store : StudentStore) (matric_number : String)
    (student_info_to_update : StudentUpdate) : StudentStore × UpdateResult :=
  match store.find? (fun r => r.matric_number = matric_number) with
  | none => (store, .notFound)
  | some db_student =>
    match commitRow (setAttrs db_student student_info_to_update) with
    | none => (store, .integrityError)
    | some row =>
      (store.map (fun r => if r.matric_number = matric_number then row else r),
       .updated row)

/-- `crud.py` `delete_student`: fetch by key (`None` when absent), delete
the row, commit, and return the literal string "ok". -/
def delete_student (store : StudentStore) (matric_number : String) :
    StudentStore × Option String :=
  match store.find? (fun r => r.matric_number = matric_number) with
  | none => (store, none)
  | some _ =>
    (store.filter (fun r => !(r.matric_number = matric_number)), some "ok")

end Crud

/-- A raw JSON object supplied by the client: key/value pairs. -/
abbrev RawPayload := List (String × JVal)

/-- The value of a key in a raw payload (first occurrence). -/
def lookupKey (payload : RawPayload) (k : String) : Option JVal :=
  (payload.find? (fun kv => kv.1 = k)).map Prod.snd

/-- Pydantic parsing of a required `str` field: present and a string, else
a validation error (`none`). -/
def parseReqStr (payload : RawPayload) (k : String) : Option String :=
  match lookupKey payload k with
  | some (.s v) => some v
  | _ => none

/-- Pydantic parsing of an optional `str | None = None` field: absent
defaults to `None`, an explicit null is `None`, a string is itself,
anything else is a validation error. -/
def parseOptStr (payload : RawPayload) (k : String) : Option (Option String) :=
  match lookupKey payload k with
  | none => some none
  | some .null => some none
  | some (.s v) => some (some v)
  | some (.b _) => none

/-- Pydantic parsing of a `StudentUpdate` field with unset tracking: the
field is marked set exactly when its key is in the payload; an explicit
null is kept as a set-to-null. -/
def parseUpdField (payload : RawPayload) (k : String) :
    Option (Option (Option String)) :=
  match lookupKey payload k with
  | none => some none
  | some .null => some (some none)
  | some (.s v) => some (some (some v))
  | some (.b _) => none

/-- The fields declared by `StudentCreate`; any other key of a creation
payload is undeclared and dropped by validation. -/
def declaredCreateKeys : List String :=
  ["matric_number", "first_name", "last_name", "email", "password"]

/-- FastAPI validating a POST body against `StudentCreate`: the declared
fields are read (all required but `email`), undeclared keys are ignored. -/
def parseStudentCreate (payload : RawPayload) : Option StudentCreate :=
  match parseReqStr payload "matric_number", parseReqStr payload "first_name",
        parseReqStr payload "last_name", parseOptStr payload "email",
        parseReqStr payload "password" with
  | some m, some f, some l, some e, some pw =>
      some { matric_number := m, first_name := f, last_name := l
             email := e, password := pw }
  | _, _, _, _, _ => none

/-- FastAPI validating a PATCH body against `StudentUpdate`: only the four
declared optional fields are read (undeclared keys, `matric_number`
included, are ignored), each marked set exactly when present. -/
def parseStudentUpdate (payload : RawPayload) : Option StudentUpdate :=
  match parseUpdField payload "first_name", parseUpdField payload "last_name",
        parseUpdField payload "email", parseUpdField payload "password" with
  | some f, some l, some e, some pw =>
      some { first_name := f, last_name := l, email := e, password := pw }
  | _, _, _, _ => none

namespace App

/-- `better_app.py` POST `/student` handler body: call the gateway and
return the read view; a duplicate-key IntegrityError escapes uncaught and
the framework answers 500. -/
def create_student (store : StudentStore) (student : StudentCreate) :
    StudentStore × Response :=
  match Crud.create_students store student with
  | (st, .created db_student) =>
      (st, { status := 200
             body := .obj (StudentRead.fromStudent db_student).serialize })
  | (st, .integrityError) =>
      (st, { status := 500, body := .obj [("detail", .s "Internal Server Error")] })

/-- `better_app.py` GET `/students` handler: all rows as read views,
always 200. -/
def read_students (store : StudentStore) : Response :=
  { status := 200
    body := .arr ((Crud.get_students store).map
      (fun s => (StudentRead.fromStudent s).serialize)) }

/-- `better_app.py` GET `/students/{matric_number}` handler: 400 "Student
not found" when absent, else the read view. -/
def read_student (store : StudentStore) (matric_number : String) : Response :=
  match Crud.get_student_by_matric_number store matric_number with
  | none => { status := 400, body := .obj [("detail", .s "Student not found")] }
  | some s => { status := 200, body := .obj (StudentRead.fromStudent s).serialize }

/-- `better_app.py` PATCH `/students/{matric_number}` handler: 404 when
absent, else the read view of the updated row; an IntegrityError at
commit escapes uncaught and the framework answers 500. -/
def update_student (store : StudentStore) (matric_number : String)
    (student : StudentUpdate) : StudentStore × Response :=
  match Crud.update_student store matric_number student with
  | (st, .notFound) =>
      (st, { status := 404, body := .obj [("detail", .s "Student not found")] })
  | (st, .integrityError) =>
      (st, { status := 500, body := .obj [("detail", .s "Internal Server Error")] })
  | (st, .updated row) =>
      (st, { status := 200, body := .obj (StudentRead.fromStudent row).serialize })

/-- `better_app.py` DELETE `/students/{matric_number}` handler: 404 when
absent, else the fixed acknowledgment object. -/
def delete_student (store : StudentStore) (matric_number : String) :
    StudentStore × Response :=
  match Crud.delete_student store matric_number with
  | (st, none) =>
      (st, { status := 404, body := .obj [("detail", .s "Student not found")] })
  | (st, some _) =>
      (st, { status := 200, body := .obj [("ok", .b true)] })

end App

namespace Route

/-- The POST `/student` route as the client sees it: request validation
(422 on shape mismatch) followed by the handler. -/
def post_student (store : StudentStore) (payload : RawPayload) :
    StudentStore × Response :=
  match parseStudentCreate payload with
  | none => (store, { status := 422, body := .obj [("detail", .s "validation error")] })
  | some student => App.create_student store student

/-- The PATCH `/students/{matric_number}` route as the client sees it:
request validation (422 on shape mismatch) followed by the handler. -/
def patch_student (store : StudentStore) (matric_number : String)
    (payload : RawPayload) : StudentStore × Response :=
  match parseStudentUpdate payload with
  | none => (store, { status := 422, body := .obj [("detail", .s "validation error")] })
  | some student => App.update_student store matric_number student

end Route

/-! Concrete rows and payloads used by the witness theorems, taken from the
repository's own tests. -/

/-- The student of the repository's tests. -/
def adebola : Student :=
  { matric_number := "21cg029882", first_name := "Adebola"
    last_name := "Odufuwa", email := none, password := "someone" }

/-- A one-row store holding `adebola`. -/
def demoStore : StudentStore := [adebola]

/-- The patch of the repository's `test_patch_student`: only `email` is
explicitly sent. -/
def demoPatch : StudentUpdate := { email := some (some "adeboladuf@gmail.com") }

/-- `adebola` after the demo patch. -/
def adebolaPatched : Student := { adebola with email := some "adeboladuf@gmail.com" }

/-- A second, distinct student. -/
def feranmi : Student :=
  { matric_number := "21cg029883", first_name := "Oluwaferanmi"
    last_name := "Odufuwa", email := some "adeboladuf@gmail.com"
    password := "password" }

/-- A creation view whose key collides with `adebola`'s. -/
def dupInput : StudentCreate :=
  { matric_number := "21cg029882", first_name := "Someone"
    last_name := "Else", email := none, password := "pw" }

/-- A creation view with a fresh key. -/
def freshInput : StudentCreate :=
  { matric_number := "21cg029884", first_name := "Fresh"
    last_name := "Person", email := some "fresh@x.y", password := "pw" }

/-- A creation payload carrying an undeclared extra key (`"gpa"`). -/
def extraPayload : RawPayload :=
  [("matric_number", .s "21cg029884"), ("first_name", .s "Fresh"),
   ("last_name", .s "Person"), ("email", .s "fresh@x.y"),
   ("password", .s "pw"), ("gpa", .s "5.0")]

/-! Helper lemmas about list lookup, replacement and filtering. -/

/-- Appending after a failed lookup: the search continues in the suffix. -/
theorem find?_append_of_none {α : Type} (l₁ l₂ : List α) (p : α → Bool)
    (h : l₁.find? p = none) : (l₁ ++ l₂).find? p = l₂.find? p := by
  rw [List.find?_append, h, Option.none_or]

/-- Filtering by a superset predicate does not change a lookup. -/
theorem find?_filter_superset {α : Type} (l : List α) (p q : α → Bool)
    (h : ∀ x, q x = true → p x = true) :
    (l.filter p).find? q = l.find? q := by
  induction l with
  | nil => rfl
  | cons x xs ih =>
    by_cases hq : q x = true
    · have hp := h x hq
      simp [List.filter_cons, hp, List.find?_cons, hq]
    · by_cases hp : p x = true
      · simp only [List.filter_cons, hp, if_true, List.find?_cons]
        simp only [Bool.not_eq_true] at hq
        simp [hq, ih]
      · simp only [Bool.not_eq_true] at hq hp
        simp [List.filter_cons, hp, List.find?_cons, hq, ih]

/-- Replacing the row with a given key: when a row with that key exists and
the replacement carries the same key, the post-replacement lookup returns
the replacement. -/
theorem find?_replace_row (l : List Student) (key : String) (row : Student)
    (hfound : (l.find? (fun r => r.matric_number = key)).isSome)
    (hrow : row.matric_number = key) :
    (l.map (fun r => if r.matric_number = key then row else r)).find?
      (fun r => r.matric_number = key) = some row := by
  induction l with
  | nil => simp [List.find?] at hfound
  | cons x xs ih =>
    by_cases hx : x.matric_number = key
    · simp [List.find?_cons, hx, hrow]
    · have hxd : decide (x.matric_number = key) = false := by simp [hx]
      simp only [List.find?_cons, hxd] at hfound
      simp only [List.map_cons, if_neg hx, List.find?_cons, hxd]
      exact ih hfound

/-- A committed row keeps the pending row's key. -/
theorem commitRow_matric (p : PendingStudent) (row : Student)
    (h : Crud.commitRow p = some row) : row.matric_number = p.matric_number := by
  unfold Crud.commitRow at h
  split at h
  · cases h; rfl
  · cases h

/-- A committed row agrees with the pending row on every field. -/
theorem commitRow_fields (p : PendingStudent) (row : Student)
    (h : Crud.commitRow p = some row) :
    p.first_name = some row.first_name ∧ p.last_name = some row.last_name ∧
    p.email = row.email ∧ p.password = some row.password := by
  unfold Crud.commitRow at h
  split at h
  · cases h
    constructor
    · assumption
    constructor
    · assumption
    exact ⟨rfl, by assumption⟩
  · cases h

/-- A pending row with NULL in `first_name` cannot be committed. -/
theorem commitRow_none_first (p : PendingStudent) (h : p.first_name = none) :
    Crud.commitRow p = none := by
  unfold Crud.commitRow
  split
  · simp_all
  · rfl

/-- A pending row with NULL in `last_name` cannot be committed. -/
theorem commitRow_none_last (p : PendingStudent) (h : p.last_name = none) :
    Crud.commitRow p = none := by
  unfold Crud.commitRow
  split
  · simp_all
  · rfl

/-- A pending row with NULL in `password` cannot be committed. -/
theorem commitRow_none_password (p : PendingStudent) (h : p.password = none) :
    Crud.commitRow p = none := by
  unfold Crud.commitRow
  split
  · simp_all
  · rfl

/-- The keys of a serialized read view are the four base fields. -/
theorem serialize_keys (r : StudentRead) :
    (StudentRead.serialize r).map Prod.fst =
      ["matric_number", "first_name", "last_name", "email"] := rfl

/-- After deleting every row with a given key, looking that key up fails. -/
theorem find?_filter_ne (l : List Student) (key : String) :
    (l.filter (fun r => !(r.matric_number = key))).find?
      (fun r => r.matric_number = key) = none := by
  rw [List.find?_eq_none]
  intro x hx
  rw [List.mem_filter] at hx
  simpa using hx.2

/-- C2: for every store and input, the serialized response bodies of the
create, list, get-by-key and partial-update handlers never contain a
`password` key, although the stored `Student` rows do carry a password
field. -/
theorem C2_password_never_in_response (store : StudentStore)
    (inp : StudentCreate) (key : String) (u : StudentUpdate) :
    "password" ∉ Body.keys (App.create_student store inp).2.body ∧
    "password" ∉ Body.keys (App.read_students store).body ∧
    "password" ∉ Body.keys (App.read_student store key).body ∧
    "password" ∉ Body.keys (App.update_student store key u).2.body := by
  refine ⟨?_, ?_, ?_, ?_⟩
  · rcases h : Crud.create_students store inp with ⟨st, res⟩
    cases res with
    | created db =>
      simp only [App.create_student, h, Body.keys, serialize_keys]
      decide
    | integrityError =>
      simp only [App.create_student, h, Body.keys, List.map_cons, List.map_nil]
      decide
  · intro hmem
    simp only [App.read_students, Crud.get_students, Body.keys,
      List.map_map] at hmem
    rw [List.mem_flatten] at hmem
    obtain ⟨l, hl, hpl⟩ := hmem
    rw [List.mem_map] at hl
    obtain ⟨s, _, rfl⟩ := hl
    simp only [Function.comp_apply, serialize_keys] at hpl
    exact absurd hpl (by decide)
  · cases h : Crud.get_student_by_matric_number store key with
    | none =>
      simp only [App.read_student, h, Body.keys, List.map_cons, List.map_nil]
      decide
    | some s =>
      simp only [App.read_student, h, Body.keys, serialize_keys]
      decide
  · rcases h : Crud.update_student store key u with ⟨st, res⟩
    cases res with
    | notFound =>
      simp only [App.update_student, h, Body.keys, List.map_cons, List.map_nil]
      decide
    | integrityError =>
      simp only [App.update_student, h, Body.keys, List.map_cons, List.map_nil]
      decide
    | updated r =>
      simp only [App.update_student, h, Body.keys, serialize_keys]
      decide

/-- C4: on a key absent from the store, the gateway lookup returns `None`,
and update and delete both report absence without modifying the store or
creating a row; the handlers surface these as 4xx responses (400 for get,
404 for patch and delete), not as unrecoverable errors. -/
theorem C4_not_found_symmetry (store : StudentStore) (key : String)
    (h : Crud.get_student_by_matric_number store key = none) :
    (∀ u : StudentUpdate,
      Crud.update_student store key u = (store, .notFound)) ∧
    Crud.delete_student store key = (store, none) ∧
    App.read_student store key =
      { status := 400, body := .obj [("detail", .s "Student not found")] } ∧
    (∀ u : StudentUpdate, App.update_student store key u =
      (store, { status := 404, body := .obj [("detail", .s "Student not found")] })) ∧
    App.delete_student store key =
      (store, { status := 404, body := .obj [("detail", .s "Student not found")] }) := by
  have hf : store.find? (fun r => r.matric_number = key) = none := h
  refine ⟨fun u => ?_, ?_, ?_, fun u => ?_, ?_⟩
  · simp [Crud.update_student, hf]
  · simp [Crud.delete_student, hf]
  · simp [App.read_student, Crud.get_student_by_matric_number, hf]
  · simp [App.update_student, Crud.update_student, hf]
  · simp [App.delete_student, Crud.delete_student, hf]

/-- C4 witness: the demo store with an absent key. -/
theorem C4_witness :
    Crud.get_student_by_matric_number demoStore "nobody" = none ∧
    Crud.update_student demoStore "nobody" demoPatch =
      (demoStore, .notFound) ∧
    Crud.delete_student demoStore "nobody" = (demoStore, none) ∧
    App.read_student demoStore "nobody" =
      { status := 400, body := .obj [("detail", .s "Student not found")] } ∧
    App.update_student demoStore "nobody" demoPatch =
      (demoStore, { status := 404, body := .obj [("detail", .s "Student not found")] }) ∧
    App.delete_student demoStore "nobody" =
      (demoStore, { status := 404, body := .obj [("detail", .s "Student not found")] }) :=
  ⟨by decide,
   (C4_not_found_symmetry demoStore "nobody" (by decide)).1 demoPatch,
   (C4_not_found_symmetry demoStore "nobody" (by decide)).2.1,
   (C4_not_found_symmetry demoStore "nobody" (by decide)).2.2.1,
   (C4_not_found_symmetry demoStore "nobody" (by decide)).2.2.2.1 demoPatch,
   (C4_not_found_symmetry demoStore "nobody" (by decide)).2.2.2.2⟩

/-- C6: when delete succeeds (acknowledges), a subsequent lookup of the
same key reports absent — the row is gone from the store. -/
theorem C6_delete_finality (store : StudentStore) (key : String)
    (store' : StudentStore) (ack : String)
    (h : Crud.delete_student store key = (store', some ack)) :
    Crud.get_student_by_matric_number store' key = none := by
  unfold Crud.delete_student at h
  cases hf : store.find? (fun r => r.matric_number = key) with
  | none => rw [hf] at h; simp at h
  | some s =>
    rw [hf] at h
    injection h with h1 h2
    subst h1
    exact find?_filter_ne store key

/-- C6 witness: deleting the demo student then looking it up. -/
theorem C6_witness :
    Crud.delete_student demoStore "21cg029882" = ([], some "ok") ∧
    Crud.get_student_by_matric_number [] "21cg029882" = none :=
  ⟨by decide, C6_delete_finality demoStore "21cg029882" [] "ok" (by decide)⟩

/-- C1: a successful partial update changes exactly the fields explicitly
present in the patch: every field absent from the patch keeps its
pre-patch value, every present field takes the patch's value, and this
holds both in the returned row and in the row persisted under the key. -/
theorem C1_update_frame (store : StudentStore) (key : String)
    (u : StudentUpdate) (s : Student) (store' : StudentStore) (r : Student)
    (hs : Crud.get_student_by_matric_number store key = some s)
    (h : Crud.update_student store key u = (store', .updated r)) :
    (u.first_name = none → r.first_name = s.first_name) ∧
    (u.last_name = none → r.last_name = s.last_name) ∧
    (u.email = none → r.email = s.email) ∧
    (u.password = none → r.password = s.password) ∧
    (∀ v, u.first_name = some v → v = some r.first_name) ∧
    (∀ v, u.last_name = some v → v = some r.last_name) ∧
    (∀ v, u.email = some v → r.email = v) ∧
    (∀ v, u.password = some v → v = some r.password) ∧
    r.matric_number = s.matric_number ∧
    Crud.get_student_by_matric_number store' key = some r := by
  have hf : store.find? (fun x => x.matric_number = key) = some s := hs
  cases hc : Crud.commitRow (Crud.setAttrs s u) with
  | none => simp [Crud.update_student, hf, hc] at h
  | some row =>
    simp only [Crud.update_student, hf, hc] at h
    injection h with h1 h2
    injection h2 with h2
    subst h2
    obtain ⟨hcf, hcl, hce, hcp⟩ := commitRow_fields _ _ hc
    have hcm := commitRow_matric _ _ hc
    simp only [Crud.setAttrs] at hcf hcl hce hcp hcm
    have hsk : s.matric_number = key := by
      simpa using List.find?_some hf
    refine ⟨?_, ?_, ?_, ?_, ?_, ?_, ?_, ?_, ?_, ?_⟩
    · intro hu; rw [hu] at hcf; exact (Option.some.inj hcf).symm
    · intro hu; rw [hu] at hcl; exact (Option.some.inj hcl).symm
    · intro hu; rw [hu] at hce; exact hce.symm
    · intro hu; rw [hu] at hcp; exact (Option.some.inj hcp).symm
    · intro v hv; rw [hv] at hcf; exact hcf
    · intro v hv; rw [hv] at hcl; exact hcl
    · intro v hv; rw [hv] at hce; exact hce.symm
    · intro v hv; rw [hv] at hcp; exact hcp
    · exact hcm
    · subst h1
      exact find?_replace_row store key row (by rw [hf]; rfl) (hcm.trans hsk)

/-- C1 witness: patching only `email` on the demo store, per the
repository's own patch test. -/
theorem C1_witness :
    Crud.get_student_by_matric_number demoStore "21cg029882" = some adebola ∧
    Crud.update_student demoStore "21cg029882" demoPatch =
      ([adebolaPatched], .updated adebolaPatched) ∧
    ((demoPatch.first_name = none → adebolaPatched.first_name = adebola.first_name) ∧
     (demoPatch.last_name = none → adebolaPatched.last_name = adebola.last_name) ∧
     (demoPatch.email = none → adebolaPatched.email = adebola.email) ∧
     (demoPatch.password = none → adebolaPatched.password = adebola.password) ∧
     (∀ v, demoPatch.first_name = some v → v = some adebolaPatched.first_name) ∧
     (∀ v, demoPatch.last_name = some v → v = some adebolaPatched.last_name) ∧
     (∀ v, demoPatch.email = some v → adebolaPatched.email = v) ∧
     (∀ v, demoPatch.password = some v → v = some adebolaPatched.password) ∧
     adebolaPatched.matric_number = adebola.matric_number ∧
     Crud.get_student_by_matric_number [adebolaPatched] "21cg029882" =
       some adebolaPatched) :=
  ⟨by decide, by decide,
   C1_update_frame demoStore "21cg029882" demoPatch adebola
     [adebolaPatched] adebolaPatched (by decide) (by decide)⟩

/-- C3: creating from a creation view whose key is fresh succeeds, and
looking the created row up by its key returns a row whose read-view
fields equal the input's. -/
theorem C3_round_trip (store : StudentStore) (inp : StudentCreate)
    (h : Crud.get_student_by_matric_number store inp.matric_number = none) :
    ∃ db : Student,
      Crud.create_students store inp = (store ++ [db], .created db) ∧
      Crud.get_student_by_matric_number (Crud.create_students store inp).1
        inp.matric_number = some db ∧
      db.matric_number = inp.matric_number ∧ db.first_name = inp.first_name ∧
      db.last_name = inp.last_name ∧ db.email = inp.email := by
  have hf : store.find? (fun r => r.matric_number = inp.matric_number) = none := h
  have hany : store.any (fun r => r.matric_number = inp.matric_number) = false := by
    rw [List.find?_eq_none] at hf
    rw [List.any_eq_false]
    intro x hx
    simpa using hf x hx
  refine ⟨{ matric_number := inp.matric_number, first_name := inp.first_name
            last_name := inp.last_name, email := inp.email
            password := inp.password }, ?_, ?_, rfl, rfl, rfl, rfl⟩
  · simp [Crud.create_students, hany]
  · simp only [Crud.create_students, hany, Bool.false_eq_true, if_false]
    rw [Crud.get_student_by_matric_number, find?_append_of_none _ _ _ hf]
    simp [List.find?_cons]

/-- C3 witness: creating a fresh student over the demo store and reading
it back. -/
theorem C3_witness :
    Crud.get_student_by_matric_number demoStore freshInput.matric_number = none ∧
    (∃ db : Student,
      Crud.create_students demoStore freshInput = (demoStore ++ [db], .created db) ∧
      Crud.get_student_by_matric_number (Crud.create_students demoStore freshInput).1
        freshInput.matric_number = some db ∧
      db.matric_number = freshInput.matric_number ∧
      db.first_name = freshInput.first_name ∧
      db.last_name = freshInput.last_name ∧ db.email = freshInput.email) :=
  ⟨by decide, C3_round_trip demoStore freshInput (by decide)⟩

/-- C9: the primary key is immutable under partial update — the update
gateway preserves every row's `matric_number`, a successfully updated row
keeps the key it was fetched by, and no raw PATCH payload (even one
carrying a `matric_number` key) changes any row's key. -/
theorem C9_matric_number_immutable (store : StudentStore) (key : String) :
    (∀ u : StudentUpdate,
      (Crud.update_student store key u).1.map Student.matric_number =
        store.map Student.matric_number) ∧
    (∀ (u : StudentUpdate) (r : Student),
      (Crud.update_student store key u).2 = .updated r →
        r.matric_number = key) ∧
    (∀ payload : RawPayload,
      (Route.patch_student store key payload).1.map Student.matric_number =
        store.map Student.matric_number) := by
  have hkey : ∀ (u : StudentUpdate) (r : Student),
      (Crud.update_student store key u).2 = .updated r → r.matric_number = key := by
    intro u r h
    cases hf : store.find? (fun x => x.matric_number = key) with
    | none => simp [Crud.update_student, hf] at h
    | some s =>
      cases hc : Crud.commitRow (Crud.setAttrs s u) with
      | none => simp [Crud.update_student, hf, hc] at h
      | some row =>
        simp only [Crud.update_student, hf, hc] at h
        injection h with h2
        subst h2
        have hcm := commitRow_matric _ _ hc
        simp only [Crud.setAttrs] at hcm
        have hsk : s.matric_number = key := by
          simpa using List.find?_some hf
        exact hcm.trans hsk
  have hmain : ∀ u : StudentUpdate,
      (Crud.update_student store key u).1.map Student.matric_number =
        store.map Student.matric_number := by
    intro u
    cases hf : store.find? (fun x => x.matric_number = key) with
    | none => simp [Crud.update_student, hf]
    | some s =>
      cases hc : Crud.commitRow (Crud.setAttrs s u) with
      | none => simp [Crud.update_student, hf, hc]
      | some row =>
        have hrk : row.matric_number = key := by
          apply hkey u row
          simp [Crud.update_student, hf, hc]
        simp only [Crud.update_student, hf, hc]
        rw [List.map_map]
        apply List.map_congr_left
        intro a _
        by_cases hx : a.matric_number = key
        · simp [Function.comp, if_pos hx, hrk, hx]
        · simp [Function.comp, if_neg hx]
  refine ⟨hmain, hkey, ?_⟩
  intro payload
  unfold Route.patch_student
  cases hp : parseStudentUpdate payload with
  | none => rfl
  | some u =>
    rcases h2 : Crud.update_student store key u with ⟨st, res⟩
    have := hmain u
    rw [h2] at this
    cases res <;> simp [App.update_student, h2] <;> exact this

/-- C9 witness: the demo patch keeps the key, and a raw PATCH payload
trying to overwrite `matric_number` leaves every key unchanged. -/
theorem C9_witness :
    ((Crud.update_student demoStore "21cg029882" demoPatch).1.map
        Student.matric_number =
      demoStore.map Student.matric_number) ∧
    adebolaPatched.matric_number = "21cg029882" ∧
    ((Route.patch_student demoStore "21cg029882"
        [("email", .s "x@y.z"), ("matric_number", .s "99zz999999")]).1.map
          Student.matric_number =
      demoStore.map Student.matric_number) :=
  ⟨(C9_matric_number_immutable demoStore "21cg029882").1 demoPatch,
   (C9_matric_number_immutable demoStore "21cg029882").2.1 demoPatch
     adebolaPatched (by decide),
   (C9_matric_number_immutable demoStore "21cg029882").2.2
     [("email", .s "x@y.z"), ("matric_number", .s "99zz999999")]⟩

/-- C5 counterexample: the claim asserts that every explicitly-null patch
field is written through and the update succeeds; but patching the demo
student with an explicit null `first_name` hits the NOT NULL constraint
at commit, so the update fails with an integrity error (store unchanged)
instead of succeeding. -/
theorem C5_counterexample :
    Crud.update_student demoStore "21cg029882" { first_name := some none } =
      (demoStore, .integrityError) ∧
    App.update_student demoStore "21cg029882" { first_name := some none } =
      (demoStore,
       { status := 500, body := .obj [("detail", .s "Internal Server Error")] }) := by
  constructor
  · decide
  · decide

/-- C5 amended: an explicitly-sent null is passed through to the row
rather than rejected by the gateway; for the nullable field `email` the
update then succeeds and returns the row with `email` null, while for the
NOT NULL fields (`first_name`, `last_name`, `password`) the commit fails
with an integrity error and the store is left unchanged. -/
theorem C5_explicit_null_passthrough (store : StudentStore) (key : String)
    (s : Student) (hs : Crud.get_student_by_matric_number store key = some s) :
    Crud.update_student store key { email := some none } =
      (store.map (fun r =>
        if r.matric_number = key then { s with email := none } else r),
       .updated { s with email := none }) ∧
    (∀ u : StudentUpdate,
      u.first_name = some none ∨ u.last_name = some none ∨
        u.password = some none →
      Crud.update_student store key u = (store, .integrityError)) := by
  have hf : store.find? (fun x => x.matric_number = key) = some s := hs
  constructor
  · have hc : Crud.commitRow (Crud.setAttrs s { email := some none }) =
        some { s with email := none } := rfl
    simp [Crud.update_student, hf, hc]
  · intro u hu
    have hc : Crud.commitRow (Crud.setAttrs s u) = none := by
      rcases hu with h1 | h1 | h1
      · exact commitRow_none_first _ (by simp [Crud.setAttrs, h1])
      · exact commitRow_none_last _ (by simp [Crud.setAttrs, h1])
      · exact commitRow_none_password _ (by simp [Crud.setAttrs, h1])
    simp [Crud.update_student, hf, hc]

/-- C5 witness: explicit null `email` succeeds on the demo store; explicit
null `first_name` is rejected at commit. -/
theorem C5_witness :
    Crud.get_student_by_matric_number demoStore "21cg029882" = some adebola ∧
    Crud.update_student demoStore "21cg029882" { email := some none } =
      (demoStore.map (fun r =>
        if r.matric_number = "21cg029882" then { adebola with email := none } else r),
       .updated { adebola with email := none }) ∧
    Crud.update_student demoStore "21cg029882" { first_name := some none } =
      (demoStore, .integrityError) :=
  ⟨by decide,
   (C5_explicit_null_passthrough demoStore "21cg029882" adebola (by decide)).1,
   (C5_explicit_null_passthrough demoStore "21cg029882" adebola (by decide)).2
     { first_name := some none } (Or.inl rfl)⟩

/-- C7 counterexample: the claim says delete returns the removed Student
entity rather than a mere acknowledgment token; but deleting two rows
whose fields all differ returns the same constant value `"ok"` from the
gateway (and the same `ok: true` object from the handler), so the return
carries no trace of the removed entity. -/
theorem C7_counterexample :
    adebola ≠ feranmi ∧
    (Crud.delete_student [adebola] "21cg029882").2 = some "ok" ∧
    (Crud.delete_student [feranmi] "21cg029883").2 = some "ok" ∧
    (Crud.delete_student [adebola] "21cg029882").2 =
      (Crud.delete_student [feranmi] "21cg029883").2 ∧
    (App.delete_student [adebola] "21cg029882").2 =
      { status := 200, body := .obj [("ok", .b true)] } ∧
    (App.delete_student [feranmi] "21cg029883").2 =
      (App.delete_student [adebola] "21cg029882").2 := by
  refine ⟨by decide, by decide, by decide, by decide, by decide, by decide⟩

/-- C7 amended: on a present key the gateway delete removes the row and
returns the constant acknowledgment string `"ok"` (the handler returns
status 200 with the fixed `ok: true` object) — not the removed entity. -/
theorem C7_delete_returns_token (store : StudentStore) (key : String)
    (s : Student) (hs : Crud.get_student_by_matric_number store key = some s) :
    Crud.delete_student store key =
      (store.filter (fun r => !(r.matric_number = key)), some "ok") ∧
    App.delete_student store key =
      (store.filter (fun r => !(r.matric_number = key)),
       { status := 200, body := .obj [("ok", .b true)] }) ∧
    Crud.get_student_by_matric_number
      (store.filter (fun r => !(r.matric_number = key))) key = none := by
  have hf : store.find? (fun r => r.matric_number = key) = some s := hs
  refine ⟨?_, ?_, find?_filter_ne store key⟩
  · simp [Crud.delete_student, hf]
  · simp [App.delete_student, Crud.delete_student, hf]

/-- C7 witness: deleting the demo student. -/
theorem C7_witness :
    Crud.get_student_by_matric_number demoStore "21cg029882" = some adebola ∧
    Crud.delete_student demoStore "21cg029882" =
      (demoStore.filter (fun r => !(r.matric_number = "21cg029882")), some "ok") ∧
    App.delete_student demoStore "21cg029882" =
      (demoStore.filter (fun r => !(r.matric_number = "21cg029882")),
       { status := 200, body := .obj [("ok", .b true)] }) ∧
    Crud.get_student_by_matric_number
      (demoStore.filter (fun r => !(r.matric_number = "21cg029882")))
      "21cg029882" = none :=
  ⟨by decide,
   (C7_delete_returns_token demoStore "21cg029882" adebola (by decide)).1,
   (C7_delete_returns_token demoStore "21cg029882" adebola (by decide)).2.1,
   (C7_delete_returns_token demoStore "21cg029882" adebola (by decide)).2.2⟩

/-- C8: creating over an existing key is not silently overwritten — the
insert hits the primary-key constraint — but the handler does not surface
a client error: the IntegrityError escapes uncaught and the framework
answers a 500 server error.  Evaluated at the repository's test student
as the pre-existing row. -/
theorem C8_duplicate_key_uncaught :
    Crud.create_students demoStore dupInput = (demoStore, .integrityError) ∧
    App.create_student demoStore dupInput =
      (demoStore,
       { status := 500, body := .obj [("detail", .s "Internal Server Error")] }) := by
  constructor
  · decide
  · decide

/-- Dropping undeclared keys does not change the value found for a
declared key. -/
theorem lookupKey_filter_declared (payload : RawPayload) (k : String)
    (hk : declaredCreateKeys.contains k = true) :
    lookupKey (payload.filter (fun kv => declaredCreateKeys.contains kv.1)) k =
      lookupKey payload k := by
  have himp : ∀ kv : String × JVal, (decide (kv.1 = k)) = true →
      declaredCreateKeys.contains kv.1 = true := by
    intro kv hkv
    have hkk : kv.1 = k := of_decide_eq_true hkv
    rw [hkk]
    exact hk
  unfold lookupKey
  rw [find?_filter_superset _ _ _ himp]

/-- Dropping undeclared keys does not change the parse of a required
string field. -/
theorem parseReqStr_filter (payload : RawPayload) (k : String)
    (hk : declaredCreateKeys.contains k = true) :
    parseReqStr (payload.filter (fun kv => declaredCreateKeys.contains kv.1)) k =
      parseReqStr payload k := by
  unfold parseReqStr
  rw [lookupKey_filter_declared payload k hk]

/-- Dropping undeclared keys does not change the parse of an optional
string field. -/
theorem parseOptStr_filter (payload : RawPayload) (k : String)
    (hk : declaredCreateKeys.contains k = true) :
    parseOptStr (payload.filter (fun kv => declaredCreateKeys.contains kv.1)) k =
      parseOptStr payload k := by
  unfold parseOptStr
  rw [lookupKey_filter_declared payload k hk]

/-- Validation of a creation payload reads only the declared keys. -/
theorem parseStudentCreate_filter (payload : RawPayload) :
    parseStudentCreate
        (payload.filter (fun kv => declaredCreateKeys.contains kv.1)) =
      parseStudentCreate payload := by
  unfold parseStudentCreate
  rw [parseReqStr_filter payload "matric_number" (by decide),
      parseReqStr_filter payload "first_name" (by decide),
      parseReqStr_filter payload "last_name" (by decide),
      parseOptStr_filter payload "email" (by decide),
      parseReqStr_filter payload "password" (by decide)]

/-- C10: the POST route treats a creation payload exactly like its
projection to the declared fields — undeclared extra keys are silently
ignored, never rejected, never stored and never echoed; and a successful
(200) response body holds exactly the four read-view keys. -/
theorem C10_extra_keys_ignored (store : StudentStore) (payload : RawPayload) :
    Route.post_student store payload =
      Route.post_student store
        (payload.filter (fun kv => declaredCreateKeys.contains kv.1)) ∧
    (∀ (st' : StudentStore) (resp : Response),
      Route.post_student store payload = (st', resp) →
      resp.status = 200 →
      Body.keys resp.body =
        ["matric_number", "first_name", "last_name", "email"]) := by
  constructor
  · unfold Route.post_student
    rw [parseStudentCreate_filter]
  · intro st' resp hroute h200
    cases hp : parseStudentCreate payload with
    | none =>
      simp only [Route.post_student, hp] at hroute
      injection hroute with h1 h2
      rw [← h2] at h200
      simp at h200
    | some sc =>
      simp only [Route.post_student, hp] at hroute
      rcases hc : Crud.create_students store sc with ⟨st2, res⟩
      cases res with
      | created db =>
        simp only [App.create_student, hc] at hroute
        injection hroute with h1 h2
        rw [← h2]
        simp [Body.keys, serialize_keys]
      | integrityError =>
        simp only [App.create_student, hc] at hroute
        injection hroute with h1 h2
        rw [← h2] at h200
        simp at h200

/-- C10 witness: a creation payload carrying the undeclared key `"gpa"` is
accepted, handled exactly like its declared-field projection, and echoed
with only the read-view keys. -/
theorem C10_witness :
    Route.post_student [] extraPayload =
      Route.post_student []
        (extraPayload.filter (fun kv => declaredCreateKeys.contains kv.1)) ∧
    Body.keys (Route.post_student [] extraPayload).2.body =
      ["matric_number", "first_name", "last_name", "email"] ∧
    (Route.post_student [] extraPayload).2.status = 200 :=
  ⟨(C10_extra_keys_ignored [] extraPayload).1,
   (C10_extra_keys_ignored [] extraPayload).2
     (Route.post_student [] extraPayload).1
     (Route.post_student [] extraPayload).2 rfl (by decide),
   by decide⟩
